import Mathlib

/-
Verification of the dpnp admin panel (hero-image upload route and QR-code
manager component, src/app/api/hero-images/upload/route.ts).

The code is shallowly embedded: each handler becomes a pure Lean function
from its inputs, an explicit environment (outcomes of the external storage
and database calls, the current timestamp, the public-URL resolver) and the
component state, to the resulting response/state together with a trace of
the external calls it issued (`Effect` list).
-/

/-- A browser `File` value: declared name, MIME type and size in bytes. -/
structure FileData where
  name : String
  type : String
  size : Nat
  deriving Repr, DecidableEq

/-- JavaScript `s.split('.').pop()`: the last dot-separated segment of `s`
(the whole string when `s` has no dot, `""` when `s` ends in a dot).
`String.split` in JS on a one-char separator agrees with `splitOn`, and
`pop()` on the (always nonempty) result is the last element. -/
def jsSplitPop (s : String) : String :=
  (s.splitOn ".").getLastD ""

/-- Whether `c` is a digit of the given base (10 or 16), as accepted by
JavaScript `parseInt`. -/
def jsIsDigitInBase (base : Nat) (c : Char) : Bool :=
  if base == 16 then
    c.isDigit || ('a' ≤ c && c ≤ 'f') || ('A' ≤ c && c ≤ 'F')
  else
    c.isDigit

/-- Numeric value of a (hex) digit character. -/
def jsDigitVal (c : Char) : Nat :=
  if c.isDigit then c.toNat - '0'.toNat
  else if 'a' ≤ c && c ≤ 'f' then c.toNat - 'a'.toNat + 10
  else if 'A' ≤ c && c ≤ 'F' then c.toNat - 'A'.toNat + 10
  else 0

/-- Accumulate a digit list into a natural number in the given base. -/
def jsDigitsVal (base : Nat) (ds : List Char) : Nat :=
  ds.foldl (fun a c => a * base + jsDigitVal c) 0

/-- JavaScript `parseInt(s)` (radix unspecified): skip leading whitespace,
read an optional sign, switch to hex on a `0x`/`0X` marker, then parse the
longest prefix of digits; `none` models the `NaN` result when no digit is
found. -/
def jsParseInt (s : String) : Option Int :=
  let cs := s.data.dropWhile Char.isWhitespace
  let (sign, cs1) : Int × List Char :=
    match cs with
    | '-' :: rest => (-1, rest)
    | '+' :: rest => (1, rest)
    | _ => (1, cs)
  let (base, cs2) : Nat × List Char :=
    match cs1 with
    | '0' :: 'x' :: rest => (16, rest)
    | '0' :: 'X' :: rest => (16, rest)
    | _ => (10, cs1)
  let ds := cs2.takeWhile (jsIsDigitInBase base)
  if ds.isEmpty then none
  else some (sign * (jsDigitsVal base ds : Int))

/-- JavaScript `s.trim()`: strip whitespace from both ends (structural
recursion on the character list, so concrete instances evaluate). -/
def jsTrim (s : String) : String :=
  ⟨((s.data.dropWhile Char.isWhitespace).reverse.dropWhile
      Char.isWhitespace).reverse⟩

/-- Whether `p` is an initial segment of `cs`. -/
def charsLeading : List Char → List Char → Bool
  | [], _ => true
  | _ :: _, [] => false
  | p :: ps, c :: cs => (p == c) && charsLeading ps cs

/-- JavaScript `s.startsWith(pre)`. -/
def jsStartsWith (s pre : String) : Bool :=
  charsLeading pre.data s.data

/-- The multipart form received by the hero-image POST handler; each field
of `formData` is `none` when absent. -/
structure HeroForm where
  file : Option FileData
  title : Option String
  subtitle : Option String
  description : Option String
  display_order : Option String
  show_content : Option String

/-- A row of the `hero_images` table as inserted by the handler (the
server-assigned id is not part of the inserted payload). -/
structure HeroRow where
  file_name : String
  file_url : String
  title : String
  subtitle : String
  description : String
  display_order : Int
  show_content : Bool
  is_active : Bool
  deriving Repr, DecidableEq

/-- A row of the `qr_codes` table. -/
structure QRRow where
  id : String
  name : String
  image_url : String
  is_active : Bool
  created_at : String
  updated_at : String
  deriving Repr, DecidableEq

/-- An external call issued to the storage or database service. -/
inductive Effect where
  | storageUploadHero (key contentType cacheControl : String)
  | insertHero (row : HeroRow)
  | storageUploadQR (key : String)
  | insertQR (name image_url : String) (is_active : Bool)
  | selectQR
  | updateClearQR
  | updateSetActiveQR (id : String)
  | deleteQR (id : String)
  deriving Repr, DecidableEq

/-- Body of the handler's JSON response. -/
inductive PostBody where
  | ok (image : HeroRow) (message : String)
  | err (msg : String)
  deriving Repr, DecidableEq

/-- An HTTP response: status code and JSON body. -/
structure PostResult where
  status : Nat
  body : PostBody
  deriving Repr, DecidableEq

/-- Environment of one handler invocation: `Date.now()`, the outcomes of
the storage upload and the database insert, and the storage service's
public-URL resolver (bucket → key → URL). -/
structure Env where
  now : Nat
  uploadOk : Bool
  dbOk : Bool
  urlOf : String → String → String

/-- The POST handler of src/app/api/hero-images/upload/route.ts.
`display_order` is `parseInt(formData.get('display_order') as string) || 0`:
an absent field reads as `null`, which `parseInt` coerces to the string
`"null"` and fails on, so it falls back to 0; `|| 0` maps the `NaN` (and
the already-zero) result to 0.  `title || ''` etc. coincide with
`getD ""` since both `null` and `""` yield `""`. -/
def POST (env : Env) (fd : HeroForm) : PostResult × List Effect :=
  let displayOrder : Int :=
    match fd.display_order with
    | none => 0
    | some s => (jsParseInt s).getD 0
  let showContent : Bool := fd.show_content == some "true"
  match fd.file with
  | none => ({ status := 400, body := .err "No file provided" }, [])
  | some file =>
    let fileExt := (jsSplitPop file.name).toLower
    let fileName := "hero-" ++ toString env.now ++ "." ++ fileExt
    let upEff := Effect.storageUploadHero fileName file.type "3600"
    if env.uploadOk then
      let publicUrl := env.urlOf "hero-images" fileName
      let row : HeroRow :=
        { file_name := fileName
          file_url := publicUrl
          title := fd.title.getD ""
          subtitle := fd.subtitle.getD ""
          description := fd.description.getD ""
          display_order := displayOrder
          show_content := showContent
          is_active := true }
      if env.dbOk then
        ({ status := 200, body := .ok row "Hero image uploaded successfully" },
         [upEff, .insertHero row])
      else
        ({ status := 500, body := .err "Failed to save metadata" },
         [upEff, .insertHero row])
    else
      ({ status := 500, body := .err "Failed to upload file" }, [upEff])

/-- Component state of `QRCodeManager` (the `useState` fields). -/
structure QRState where
  qrCodes : List QRRow
  loading : Bool
  uploading : Bool
  selectedFile : Option FileData
  qrCodeName : String
  error : String
  success : String

/-- Environment of one component action: timestamp, outcomes of the
storage upload, the insert, the two update writes of `toggleActive`, the
select result (`none` models a select error, `some rows` the fetched
data), and the public-URL resolver. -/
structure QREnv where
  now : Nat
  uploadOk : Bool
  dbOk : Bool
  firstUpdateOk : Bool
  secondUpdateOk : Bool
  selectResult : Option (List QRRow)
  urlOf : String → String → String

/-- `loadQRCodes`: sets `loading`, selects all `qr_codes` rows; on error
sets the error message and leaves the list unchanged, on success replaces
the list (`data || []` folds a null payload into `[]`, which
`selectResult = some []` covers); `finally` clears `loading`. -/
def loadQRCodes (env : QREnv) (s : QRState) : QRState × List Effect :=
  let s1 := { s with loading := true }
  match env.selectResult with
  | none =>
    ({ s1 with error := "Failed to load QR codes", loading := false },
     [Effect.selectQR])
  | some rows =>
    ({ s1 with qrCodes := rows, loading := false }, [Effect.selectQR])

/-- `handleFileSelect`: does nothing without a chosen file; rejects a file
over 5 MiB or whose type does not start with `image/` by setting an error
and returning; otherwise stores the file and clears the error.  The
function issues no external call on any path. -/
def handleFileSelect (chosen : Option FileData) (s : QRState) :
    QRState × List Effect :=
  match chosen with
  | none => (s, [])
  | some file =>
    if file.size > 5 * 1024 * 1024 then
      ({ s with error := "File size must be less than 5MB" }, [])
    else if !(jsStartsWith file.type "image/") then
      ({ s with error := "Please select an image file" }, [])
    else
      ({ s with selectedFile := some file, error := "" }, [])

/-- `uploadQRCode`: guard `!selectedFile || !qrCodeName.trim()` sets an
error and returns; otherwise sets `uploading`, uploads to the `qr-codes`
bucket, inserts a row whose `is_active` is `qrCodes.length === 0`, and on
full success sets the success message, clears the selection and name, and
re-fetches the list; `finally` clears `uploading`. -/
def uploadQRCode (env : QREnv) (s : QRState) : QRState × List Effect :=
  match s.selectedFile with
  | none => ({ s with error := "Please select a file and enter a name" }, [])
  | some file =>
    if jsTrim s.qrCodeName == "" then
      ({ s with error := "Please select a file and enter a name" }, [])
    else
      let s1 := { s with uploading := true, error := "" }
      let fileExt := jsSplitPop file.name
      let fileName := toString env.now ++ "." ++ fileExt
      if env.uploadOk then
        let url := env.urlOf "qr-codes" fileName
        let active : Bool := s.qrCodes.length == 0
        let insEff := Effect.insertQR (jsTrim s.qrCodeName) url active
        if env.dbOk then
          let s2 := { s1 with success := "QR code uploaded successfully!",
                              selectedFile := none, qrCodeName := "" }
          let p := loadQRCodes env s2
          ({ p.1 with uploading := false },
           [Effect.storageUploadQR fileName, insEff] ++ p.2)
        else
          ({ s1 with error := "Failed to save QR code", uploading := false },
           [Effect.storageUploadQR fileName, insEff])
      else
        ({ s1 with error := "Failed to upload image", uploading := false },
         [Effect.storageUploadQR fileName])

/-- Database effect of the first `toggleActive` write:
`update({ is_active: false })` with no filter clears the flag on all rows. -/
def clearAll (db : List QRRow) : List QRRow :=
  db.map fun r => { r with is_active := false }

/-- Database effect of the second `toggleActive` write:
`update({ is_active: true }).eq('id', id)` sets the flag on matching rows. -/
def setActiveRow (id : String) (db : List QRRow) : List QRRow :=
  db.map fun r => if r.id == id then { r with is_active := true } else r

/-- `toggleActive`: issues the unfiltered clear write, whose result is
discarded, then the targeted activate write; on the second write's error
sets the error message, otherwise sets the success message and re-fetches
the list.  `db` is the server-side `qr_codes` table; a failed write leaves
it unchanged. -/
def toggleActive (env : QREnv) (id : String) (s : QRState)
    (db : List QRRow) : (QRState × List QRRow) × List Effect :=
  let db1 := if env.firstUpdateOk then clearAll db else db
  let db2 := if env.secondUpdateOk then setActiveRow id db1 else db1
  let effs := [Effect.updateClearQR, Effect.updateSetActiveQR id]
  if env.secondUpdateOk then
    let s2 := { s with success := "QR code status updated!" }
    let p := loadQRCodes env s2
    ((p.1, db2), effs ++ p.2)
  else
    (({ s with error := "Failed to update QR code status" }, db2), effs)

/-- First `insertQR` effect's `is_active` value in a trace, if any. -/
def insertedQRActive : List Effect → Option Bool
  | [] => none
  | Effect.insertQR _ _ a :: _ => some a
  | _ :: t => insertedQRActive t

/-- First `insertHero` effect's row in a trace, if any. -/
def insertedHeroRow : List Effect → Option HeroRow
  | [] => none
  | Effect.insertHero r :: _ => some r
  | _ :: t => insertedHeroRow t

/-! Sample concrete inputs used by the witness theorems. -/

/-- A sample environment where every external call succeeds. -/
def envW : Env :=
  { now := 7, uploadOk := true, dbOk := true,
    urlOf := fun b k => b ++ "/" ++ k }

/-- The sample environment with a failing storage upload. -/
def envWupFail : Env :=
  { envW with uploadOk := false }

/-- A sample multipart form with the given file field. -/
def fdW (f : Option FileData) : HeroForm :=
  { file := f, title := some "T", subtitle := none, description := none,
    display_order := some "12", show_content := some "true" }

/-- A sample uploaded file. -/
def fileW : FileData :=
  { name := "Logo.PNG", type := "image/png", size := 1000 }

/-- C2: a POST whose form has no `file` field returns status 400 with an
error body and issues no storage upload and no database insert. -/
theorem POST_missing_file (env : Env) (fd : HeroForm) (h : fd.file = none) :
    (POST env fd).1.status = 400 ∧
    (∃ m, (POST env fd).1.body = PostBody.err m) ∧
    (POST env fd).2 = [] := by
  refine ⟨?_, ⟨"No file provided", ?_⟩, ?_⟩ <;> simp [POST, h]

/-- Witness for C2 at a concrete request. -/
theorem POST_missing_file_witness :
    (fdW none).file = none ∧
    ((POST envW (fdW none)).1.status = 400 ∧
     (∃ m, (POST envW (fdW none)).1.body = PostBody.err m) ∧
     (POST envW (fdW none)).2 = []) :=
  ⟨rfl, POST_missing_file envW (fdW none) rfl⟩

/-- C3: a POST with a file whose storage upload fails returns status 500
with an error body and issues no database insert. -/
theorem POST_storage_error_no_insert (env : Env) (fd : HeroForm)
    (file : FileData) (hf : fd.file = some file)
    (hup : env.uploadOk = false) :
    (POST env fd).1.status = 500 ∧
    (∃ m, (POST env fd).1.body = PostBody.err m) ∧
    ∀ row, Effect.insertHero row ∉ (POST env fd).2 := by
  refine ⟨?_, ⟨"Failed to upload file", ?_⟩, ?_⟩ <;> simp [POST, hf, hup]

/-- Witness for C3 at a concrete request. -/
theorem POST_storage_error_no_insert_witness :
    ((fdW (some fileW)).file = some fileW ∧ envWupFail.uploadOk = false) ∧
    ((POST envWupFail (fdW (some fileW))).1.status = 500 ∧
     (∃ m, (POST envWupFail (fdW (some fileW))).1.body = PostBody.err m) ∧
     ∀ row, Effect.insertHero row ∉ (POST envWupFail (fdW (some fileW))).2) :=
  ⟨⟨rfl, rfl⟩, POST_storage_error_no_insert envWupFail (fdW (some fileW)) fileW rfl rfl⟩

/-- C5: a fully successful POST returns a success body whose
`image.file_name` ends with the lower-cased last dot-segment of the
original filename. -/
theorem POST_fileName_extension (env : Env) (fd : HeroForm)
    (file : FileData) (hf : fd.file = some file)
    (hup : env.uploadOk = true) (hdb : env.dbOk = true) :
    ∃ img msg, (POST env fd).1.body = PostBody.ok img msg ∧
      ∃ p, img.file_name = p ++ (jsSplitPop file.name).toLower := by
  simp only [POST, hf, hup, hdb, if_true]
  exact ⟨_, _, rfl, _, rfl⟩

/-- Witness for C5 at a concrete request. -/
theorem POST_fileName_extension_witness :
    ((fdW (some fileW)).file = some fileW ∧ envW.uploadOk = true ∧
     envW.dbOk = true) ∧
    (∃ img msg, (POST envW (fdW (some fileW))).1.body = PostBody.ok img msg ∧
      ∃ p, img.file_name = p ++ (jsSplitPop fileW.name).toLower) :=
  ⟨⟨rfl, rfl, rfl⟩, POST_fileName_extension envW (fdW (some fileW)) fileW rfl rfl rfl⟩

/-- C8: whenever the handler reaches the insert (file present, storage
upload succeeded), the inserted row's `display_order` is the JavaScript
integer parse of the `display_order` field with fallback 0 when the field
is absent or does not parse. -/
theorem POST_display_order_parse (env : Env) (fd : HeroForm)
    (file : FileData) (hf : fd.file = some file)
    (hup : env.uploadOk = true) :
    ∃ row, insertedHeroRow (POST env fd).2 = some row ∧
      row.display_order =
        (match fd.display_order with
         | none => 0
         | some s => (jsParseInt s).getD 0) := by
  by_cases hdb : env.dbOk = true
  · simp only [POST, hf, hup, hdb, if_true]
    exact ⟨_, rfl, rfl⟩
  · simp only [POST, hf, hup, if_true, if_neg hdb]
    exact ⟨_, rfl, rfl⟩

/-- Witness for C8 at a concrete request. -/
theorem POST_display_order_parse_witness :
    ((fdW (some fileW)).file = some fileW ∧ envW.uploadOk = true) ∧
    (∃ row, insertedHeroRow (POST envW (fdW (some fileW))).2 = some row ∧
      row.display_order =
        (match (fdW (some fileW)).display_order with
         | none => 0
         | some s => (jsParseInt s).getD 0)) :=
  ⟨⟨rfl, rfl⟩, POST_display_order_parse envW (fdW (some fileW)) fileW rfl rfl⟩

/-- A sample QR-manager environment where every external call succeeds. -/
def qrEnvW : QREnv :=
  { now := 3, uploadOk := true, dbOk := true, firstUpdateOk := true,
    secondUpdateOk := true, selectResult := some [],
    urlOf := fun b k => b ++ "/" ++ k }

/-- A sample component state with a file selected and a non-blank name. -/
def qrStateW : QRState :=
  { qrCodes := [], loading := false, uploading := false,
    selectedFile := some fileW, qrCodeName := " Payment QR ",
    error := "", success := "" }

/-- C4: a QR upload that passes the guard and whose storage and database
steps succeed inserts a row whose `is_active` is true exactly when the
locally held `qrCodes` list was empty. -/
theorem uploadQRCode_insert_active (env : QREnv) (s : QRState)
    (file : FileData) (hf : s.selectedFile = some file)
    (hn : jsTrim s.qrCodeName ≠ "") (hup : env.uploadOk = true)
    (hdb : env.dbOk = true) :
    insertedQRActive (uploadQRCode env s).2 = some (s.qrCodes.length == 0) ∧
    ((s.qrCodes.length == 0) = true ↔ s.qrCodes = []) := by
  have hn' : (jsTrim s.qrCodeName == "") = false := by
    simpa using hn
  constructor
  · cases hsel : env.selectResult <;>
      simp [uploadQRCode, hf, hn', hup, hdb, loadQRCodes, hsel, insertedQRActive]
  · simp [List.length_eq_zero]

/-- Witness for C4 at a concrete state (empty local list). -/
theorem uploadQRCode_insert_active_witness :
    (qrStateW.selectedFile = some fileW ∧ jsTrim qrStateW.qrCodeName ≠ "" ∧
     qrEnvW.uploadOk = true ∧ qrEnvW.dbOk = true) ∧
    (insertedQRActive (uploadQRCode qrEnvW qrStateW).2 =
       some (qrStateW.qrCodes.length == 0) ∧
     ((qrStateW.qrCodes.length == 0) = true ↔ qrStateW.qrCodes = [])) :=
  ⟨⟨rfl, by decide, rfl, rfl⟩,
   uploadQRCode_insert_active qrEnvW qrStateW fileW rfl (by decide) rfl rfl⟩

/-- C7: a QR upload invoked with no selected file or a blank (after
trimming) name sets the error message and issues no external call. -/
theorem uploadQRCode_guard (env : QREnv) (s : QRState)
    (h : s.selectedFile = none ∨ jsTrim s.qrCodeName = "") :
    (uploadQRCode env s).1.error = "Please select a file and enter a name" ∧
    (uploadQRCode env s).2 = [] := by
  rcases h with h | h
  · simp [uploadQRCode, h]
  · cases hf : s.selectedFile with
    | none => simp [uploadQRCode, hf]
    | some f => simp [uploadQRCode, hf, h]

/-- Witness for C7 at a concrete state (file selected but blank name). -/
theorem uploadQRCode_guard_witness :
    (({ qrStateW with qrCodeName := "   " } : QRState).selectedFile = none ∨
     jsTrim ({ qrStateW with qrCodeName := "   " } : QRState).qrCodeName = "") ∧
    ((uploadQRCode qrEnvW { qrStateW with qrCodeName := "   " }).1.error =
       "Please select a file and enter a name" ∧
     (uploadQRCode qrEnvW { qrStateW with qrCodeName := "   " }).2 = []) :=
  ⟨Or.inr (by decide),
   uploadQRCode_guard qrEnvW { qrStateW with qrCodeName := "   " }
     (Or.inr (by decide))⟩

/-- C6: selecting a file over 5 MiB or with a non-`image/` type, when no
file is held, leaves `selectedFile` unset, sets an error message, and
issues no external call. -/
theorem handleFileSelect_reject (s : QRState) (file : FileData)
    (hsel : s.selectedFile = none)
    (hbad : 5 * 1024 * 1024 < file.size ∨
            jsStartsWith file.type "image/" = false) :
    (handleFileSelect (some file) s).1.selectedFile = none ∧
    (handleFileSelect (some file) s).1.error ≠ "" ∧
    (handleFileSelect (some file) s).2 = [] := by
  rcases hbad with h | h
  · rw [handleFileSelect, if_pos h]
    exact ⟨hsel, by simp, rfl⟩
  · by_cases hs : 5 * 1024 * 1024 < file.size
    · rw [handleFileSelect, if_pos hs]
      exact ⟨hsel, by simp, rfl⟩
    · rw [handleFileSelect, if_neg hs, if_pos (by simp [h])]
      exact ⟨hsel, by simp, rfl⟩

/-- A sample file whose declared type is not an image type. -/
def filePdfW : FileData :=
  { name := "doc.pdf", type := "application/pdf", size := 1000 }

/-- A sample state with nothing selected. -/
def qrStateEmptyW : QRState :=
  { qrCodes := [], loading := false, uploading := false,
    selectedFile := none, qrCodeName := "", error := "", success := "" }

/-- Witness for C6 at a concrete non-image file. -/
theorem handleFileSelect_reject_witness :
    (qrStateEmptyW.selectedFile = none ∧
     (5 * 1024 * 1024 < filePdfW.size ∨
      jsStartsWith filePdfW.type "image/" = false)) ∧
    ((handleFileSelect (some filePdfW) qrStateEmptyW).1.selectedFile = none ∧
     (handleFileSelect (some filePdfW) qrStateEmptyW).1.error ≠ "" ∧
     (handleFileSelect (some filePdfW) qrStateEmptyW).2 = []) :=
  ⟨⟨rfl, Or.inr (by decide)⟩,
   handleFileSelect_reject qrStateEmptyW filePdfW rfl (Or.inr (by decide))⟩

/-- C9: `toggleActive` never inspects the first write's outcome — the
targeted activate write is always issued, the component state and the
issued calls are the same whatever the first write's outcome, and the
success message is set whenever the second write alone succeeds. -/
theorem toggleActive_first_write_uninspected (env : QREnv) (id : String)
    (s : QRState) (db : List QRRow) (b : Bool) :
    Effect.updateSetActiveQR id ∈ (toggleActive env id s db).2 ∧
    (toggleActive { env with firstUpdateOk := b } id s db).1.1 =
      (toggleActive env id s db).1.1 ∧
    (toggleActive { env with firstUpdateOk := b } id s db).2 =
      (toggleActive env id s db).2 ∧
    (env.secondUpdateOk = true →
      (toggleActive env id s db).1.1.success = "QR code status updated!") := by
  cases h2 : env.secondUpdateOk <;> cases hsel : env.selectResult <;>
    simp [toggleActive, loadQRCodes, h2, hsel]

/-- Sample rows for the toggle witnesses: `rowA` is the active record. -/
def rowA : QRRow :=
  { id := "a", name := "A", image_url := "u", is_active := true,
    created_at := "", updated_at := "" }

/-- A second sample row, initially inactive. -/
def rowB : QRRow :=
  { id := "b", name := "B", image_url := "v", is_active := false,
    created_at := "", updated_at := "" }

/-- Witness for C9 at a concrete toggle invocation. -/
theorem toggleActive_first_write_uninspected_witness :
    Effect.updateSetActiveQR "b" ∈
      (toggleActive qrEnvW "b" qrStateEmptyW [rowA, rowB]).2 ∧
    (toggleActive { qrEnvW with firstUpdateOk := false } "b" qrStateEmptyW
        [rowA, rowB]).1.1 =
      (toggleActive qrEnvW "b" qrStateEmptyW [rowA, rowB]).1.1 ∧
    (toggleActive { qrEnvW with firstUpdateOk := false } "b" qrStateEmptyW
        [rowA, rowB]).2 =
      (toggleActive qrEnvW "b" qrStateEmptyW [rowA, rowB]).2 ∧
    (qrEnvW.secondUpdateOk = true →
      (toggleActive qrEnvW "b" qrStateEmptyW [rowA, rowB]).1.1.success =
        "QR code status updated!") :=
  toggleActive_first_write_uninspected qrEnvW "b" qrStateEmptyW [rowA, rowB] false

/-- C10: after any completed `uploadQRCode` invocation started while not
already uploading, the `uploading` flag is false, and after any completed
`loadQRCodes` invocation the `loading` flag is false. -/
theorem busy_flags_cleared (env : QREnv) (s s2 : QRState)
    (h : s.uploading = false) :
    (uploadQRCode env s).1.uploading = false ∧
    (loadQRCodes env s2).1.loading = false := by
  constructor
  · cases hf : s.selectedFile with
    | none => simpa [uploadQRCode, hf] using h
    | some f =>
      by_cases hn : (jsTrim s.qrCodeName == "") = true
      · simpa [uploadQRCode, hf, hn] using h
      · cases hup : env.uploadOk <;> cases hdb : env.dbOk <;>
          cases hsel : env.selectResult <;>
          simp [uploadQRCode, loadQRCodes, hf, hn, hup, hdb, hsel]
  · cases hsel : env.selectResult <;> simp [loadQRCodes, hsel]

/-- Witness for C10 at a concrete state and environment. -/
theorem busy_flags_cleared_witness :
    qrStateW.uploading = false ∧
    ((uploadQRCode qrEnvW qrStateW).1.uploading = false ∧
     (loadQRCodes qrEnvW qrStateEmptyW).1.loading = false) :=
  ⟨rfl, busy_flags_cleared qrEnvW qrStateW qrStateEmptyW rfl⟩

/-- Pointwise form of the two toggle writes: clearing all rows and then
activating the rows matching `b` sets each row's `is_active` to whether
its id equals `b`. -/
theorem setActive_clearAll_eq (b : String) (db : List QRRow) :
    setActiveRow b (clearAll db)
      = db.map fun r => { r with is_active := r.id == b } := by
  unfold setActiveRow clearAll
  rw [List.map_map]
  refine List.map_congr_left fun r _ => ?_
  cases h : r.id == b with
  | true => simp [Function.comp, h]
  | false => simp [Function.comp, h]

/-- Clearing all rows and then activating the rows matching `b` leaves
active exactly the rows whose id is `b`, in order. -/
theorem filter_active_setActive_clearAll (b : String) (db : List QRRow) :
    ((setActiveRow b (clearAll db)).filter (fun r => r.is_active)).map
        QRRow.id
      = (db.map QRRow.id).filter (fun i => i == b) := by
  rw [setActive_clearAll_eq]
  induction db with
  | nil => rfl
  | cons r t ih =>
    simp only [List.map_cons, List.filter_cons]
    cases h : r.id == b with
    | true => simp [h, ih]
    | false => simp [h, ih]

/-- In a duplicate-free list containing `b`, filtering for `b` yields
exactly `[b]`. -/
theorem filter_beq_singleton {l : List String} {b : String}
    (hn : l.Nodup) (hm : b ∈ l) : l.filter (fun i => i == b) = [b] := by
  induction l with
  | nil => cases hm
  | cons a t ih =>
    rw [List.nodup_cons] at hn
    rcases List.mem_cons.mp hm with rfl | hmt
    · have ht : t.filter (fun i => i == b) = [] :=
        List.filter_eq_nil_iff.mpr fun x hx => by
          simp only [beq_iff_eq]
          exact fun hxb => hn.1 (hxb ▸ hx)
      simp [List.filter_cons, ht]
    · have hab : (a == b) = false := by
        refine beq_eq_false_iff_ne.mpr fun hab => ?_
        exact hn.1 (hab ▸ hmt)
      simp [List.filter_cons, hab, ih hn.2 hmt]

/-- C1: toggling activation onto the record with id `bId`, with both
database writes succeeding, while ids are unique, `bId` is present, and a
different record is currently active, leaves exactly one active row,
namely the one with id `bId`. -/
theorem toggleActive_exactly_one_active (env : QREnv) (bId : String)
    (s : QRState) (db : List QRRow)
    (h1 : env.firstUpdateOk = true) (h2 : env.secondUpdateOk = true)
    (hnodup : (db.map QRRow.id).Nodup)
    (hmem : bId ∈ db.map QRRow.id)
    (_hactive : ∃ a ∈ db, a.is_active = true ∧ a.id ≠ bId) :
    (((toggleActive env bId s db).1.2).filter (fun r => r.is_active)).map
        QRRow.id = [bId] := by
  have hdb : (toggleActive env bId s db).1.2 =
      setActiveRow bId (clearAll db) := by
    cases hsel : env.selectResult <;>
      simp [toggleActive, loadQRCodes, h1, h2, hsel]
  rw [hdb, filter_active_setActive_clearAll,
    filter_beq_singleton hnodup hmem]

/-- Witness for C1: activating `rowB` while `rowA` is active. -/
theorem toggleActive_exactly_one_active_witness :
    (qrEnvW.firstUpdateOk = true ∧ qrEnvW.secondUpdateOk = true ∧
     ([rowA, rowB].map QRRow.id).Nodup ∧
     "b" ∈ [rowA, rowB].map QRRow.id ∧
     (∃ a ∈ [rowA, rowB], a.is_active = true ∧ a.id ≠ "b")) ∧
    (((toggleActive qrEnvW "b" qrStateEmptyW [rowA, rowB]).1.2).filter
        (fun r => r.is_active)).map QRRow.id = ["b"] :=
  ⟨⟨rfl, rfl, by decide, by decide, ⟨rowA, by decide, by decide, by decide⟩⟩,
   toggleActive_exactly_one_active qrEnvW "b" qrStateEmptyW [rowA, rowB]
     rfl rfl (by decide) (by decide)
     ⟨rowA, by decide, by decide, by decide⟩⟩
